import Mathlib

/-!
Shallow embedding of the `freddy` facility-registry client library
(`freddy/util.py` and `freddy/__init__.py`), together with theorems that
settle the frozen claims about its change-tracking dictionaries, property
dictionaries, facility entities, and query builder.

Python values are modelled by the inductive `PyVal`; a
`ChangeTrackingDict` is modelled by its backing store (an association
list, the underlying `dict`) plus the four tracking key sets
(`added_keys`, `touched_keys`, `modified_keys`, `deleted_keys`),
each modelled as a duplicate-free list used as a set.  Mutating methods
become state-passing functions; a method that can raise an exception
returns the post-state paired with the raised exception (if any), since
a Python exception propagates while leaving earlier in-place mutations
in effect.
-/

/-- Python exceptions relevant to the embedded code: `TypeError`,
`KeyError`, and `freddy.FredError` carrying its message string. -/
inductive PyErr where
  | typeError
  | keyError
  | fredError (msg : String)
deriving DecidableEq, Repr

mutual

/-- A Python value as used by the embedded code: `None`, booleans,
integers (also standing in for the numeric literals in play), strings,
structured datetimes (represented by their ISO string), lists, tuples,
and (change-tracking) dictionaries. -/
inductive PyVal where
  | vnone
  | vbool (b : Bool)
  | vint (n : Int)
  | vstr (s : String)
  | vdatetime (iso : String)
  | vlist (xs : List PyVal)
  | vtuple (xs : List PyVal)
  | vdict (d : ChangeTrackingDict)

/-- `freddy.util.ChangeTrackingDict`: the backing `dict` (an association
list of string keys to values) plus the four tracking sets created by
`__init__`.  A plain Python `dict` is the special case with all four
sets empty. -/
inductive ChangeTrackingDict where
  | mk (store : List (String × PyVal))
       (added_keys touched_keys modified_keys deleted_keys : List String)

end

mutual

/-- Python `==` on the values the embedded code compares.  Primitive
values compare by value; composite values compare structurally (the
embedded code only ever compares primitives, so Python's
order-insensitive `dict` equality never comes into play). -/
def pyBEq : PyVal → PyVal → Bool
  | .vnone, .vnone => true
  | .vbool a, .vbool b => a == b
  | .vint a, .vint b => a == b
  | .vstr a, .vstr b => a == b
  | .vdatetime a, .vdatetime b => a == b
  | .vlist xs, .vlist ys => pyListBEq xs ys
  | .vtuple xs, .vtuple ys => pyListBEq xs ys
  | .vdict a, .vdict b => ctdBEq a b
  | _, _ => false

/-- Elementwise `pyBEq` on lists. -/
def pyListBEq : List PyVal → List PyVal → Bool
  | [], [] => true
  | x :: xs, y :: ys => pyBEq x y && pyListBEq xs ys
  | _, _ => false

/-- Pairwise `pyBEq` on backing stores. -/
def storeBEq : List (String × PyVal) → List (String × PyVal) → Bool
  | [], [] => true
  | (k, v) :: xs, (k', v') :: ys => k == k' && pyBEq v v' && storeBEq xs ys
  | _, _ => false

/-- Structural equality of change-tracking dictionaries. -/
def ctdBEq : ChangeTrackingDict → ChangeTrackingDict → Bool
  | .mk s a t m dl, .mk s' a' t' m' dl' =>
      storeBEq s s' && a == a' && t == t' && m == m' && dl == dl'

end

def ChangeTrackingDict.store : ChangeTrackingDict → List (String × PyVal)
  | .mk s _ _ _ _ => s

def ChangeTrackingDict.added_keys : ChangeTrackingDict → List String
  | .mk _ a _ _ _ => a

def ChangeTrackingDict.touched_keys : ChangeTrackingDict → List String
  | .mk _ _ t _ _ => t

def ChangeTrackingDict.modified_keys : ChangeTrackingDict → List String
  | .mk _ _ _ m _ => m

def ChangeTrackingDict.deleted_keys : ChangeTrackingDict → List String
  | .mk _ _ _ _ d => d

/-- `dict.__getitem__` as a total lookup: `some` the stored value, or
`none` when the key is absent (Python raises `KeyError`). -/
def dictGet : List (String × PyVal) → String → Option PyVal
  | [], _ => none
  | (k, v) :: rest, name => if k = name then some v else dictGet rest name

/-- `dict.__setitem__` on the backing store: replace the value in place
when the key exists, append otherwise. -/
def dictSet : List (String × PyVal) → String → PyVal → List (String × PyVal)
  | [], name, val => [(name, val)]
  | (k, v) :: rest, name, val =>
      if k = name then (name, val) :: rest else (k, v) :: dictSet rest name val

/-- `dict.__delitem__` on the backing store (the caller separately
accounts for the `KeyError` on an absent key). -/
def dictDel : List (String × PyVal) → String → List (String × PyVal)
  | [], _ => []
  | (k, v) :: rest, name => if k = name then rest else (k, v) :: dictDel rest name

/-- `dict.update`: apply every binding of the second mapping, in order. -/
def dictUpdate (d other : List (String × PyVal)) : List (String × PyVal) :=
  other.foldl (fun acc kv => dictSet acc kv.1 kv.2) d

/-- Python `set.add`: insert the key if not already present. -/
def setAdd (s : List String) (k : String) : List String :=
  if k ∈ s then s else s ++ [k]

/-- Python `set.remove` removes the element; its `KeyError` on a missing
element is accounted for by the caller via membership tests. -/
def setRemove (s : List String) (k : String) : List String :=
  s.erase k

/-- Python truthiness for the values in play: `None`, `False`, zero, and
empty strings/lists/tuples/dicts are falsy. -/
def pyTruthy : PyVal → Bool
  | .vnone => false
  | .vbool b => b
  | .vint n => n != 0
  | .vstr s => s != ""
  | .vdatetime _ => true
  | .vlist xs => !xs.isEmpty
  | .vtuple xs => !xs.isEmpty
  | .vdict d => !d.store.isEmpty

/-- `ChangeTrackingDict.__setitem__`, translated line by line.  Returns
the dictionary state after the call together with `true` when the call
raised `KeyError`.  Note the source re-reads `dict.__getitem__(self,
name)` on line 32 without a `try` guard, so on a key absent from the
backing store the exception escapes after `added_keys`/`touched_keys`
were already mutated, and the value is never stored. -/
def ChangeTrackingDict.setitem (d : ChangeTrackingDict) (name : String)
    (val : PyVal) : ChangeTrackingDict × Bool :=
  let d : ChangeTrackingDict :=
    match dictGet d.store name with
    | none => ChangeTrackingDict.mk d.store (setAdd d.added_keys name)
        d.touched_keys d.modified_keys d.deleted_keys
    | some _ => d
  let d := ChangeTrackingDict.mk d.store d.added_keys
      (setAdd d.touched_keys name) d.modified_keys d.deleted_keys
  match dictGet d.store name with
  | none => (d, true)
  | some old =>
      let d :=
        if !pyBEq old val then
          ChangeTrackingDict.mk d.store d.added_keys d.touched_keys
            (setAdd d.modified_keys name) d.deleted_keys
        else d
      (ChangeTrackingDict.mk (dictSet d.store name val) d.added_keys
        d.touched_keys d.modified_keys d.deleted_keys, false)

/-- `ChangeTrackingDict.__delitem__`, translated line by line; the second
component is `true` when a `KeyError` escaped (from `set.remove` on an
element that is missing, or from `dict.__delitem__` on an absent key). -/
def ChangeTrackingDict.delitem (d : ChangeTrackingDict) (name : String) :
    ChangeTrackingDict × Bool :=
  if name ∈ d.added_keys then
    let d := ChangeTrackingDict.mk d.store (setRemove d.added_keys name)
        d.touched_keys d.modified_keys d.deleted_keys
    if name ∉ d.touched_keys then (d, true) else
    let d := ChangeTrackingDict.mk d.store d.added_keys
        (setRemove d.touched_keys name) d.modified_keys d.deleted_keys
    if name ∉ d.modified_keys then (d, true) else
    let d := ChangeTrackingDict.mk d.store d.added_keys d.touched_keys
        (setRemove d.modified_keys name) d.deleted_keys
    match dictGet d.store name with
    | none => (d, true)
    | some _ => (ChangeTrackingDict.mk (dictDel d.store name) d.added_keys
        d.touched_keys d.modified_keys d.deleted_keys, false)
  else
    let d := ChangeTrackingDict.mk d.store d.added_keys
        (setAdd d.touched_keys name)
        (setAdd d.modified_keys name) (setAdd d.deleted_keys name)
    match dictGet d.store name with
    | none => (d, true)
    | some _ => (ChangeTrackingDict.mk (dictDel d.store name) d.added_keys
        d.touched_keys d.modified_keys d.deleted_keys, false)

mutual

/-- Size of a value, used as the termination measure for the recursive
`is_touched` / `is_modified` computations. -/
def pySize : PyVal → Nat
  | .vlist xs => 1 + pyListSize xs
  | .vtuple xs => 1 + pyListSize xs
  | .vdict d => 1 + ctdSize d
  | _ => 1

/-- Size of a list of values. -/
def pyListSize : List PyVal → Nat
  | [] => 0
  | x :: xs => 1 + pySize x + pyListSize xs

/-- Size of a change-tracking dictionary. -/
def ctdSize : ChangeTrackingDict → Nat
  | .mk store _ _ _ _ => 1 + storeSize store

/-- Size of a backing store, with enough slack per entry that the
key-value tuple built from an entry is smaller than the entry. -/
def storeSize : List (String × PyVal) → Nat
  | [] => 0
  | (_, v) :: rest => 5 + pySize v + storeSize rest

end

mutual

/-- One element `v` of `self.items()` run through the generator
conjunct `isinstance(v, ChangeTrackingDict) and v.is_touched` of
`ChangeTrackingDict.is_touched`: only a dictionary passes the
`isinstance` test, and `and` short-circuits for everything else. -/
def itemTrackedTouched : PyVal → Bool
  | .vdict d => ChangeTrackingDict.is_touched d
  | _ => false
termination_by v => pySize v
decreasing_by simp [pySize, ctdSize]

/-- `ChangeTrackingDict.is_touched`: `self.touched_keys or
self.deleted_keys or any(isinstance(v, ChangeTrackingDict) and
v.is_touched for v in self.items())`, as a boolean (Python returns the
first truthy/last operand; only its truthiness is ever used).  Note the
source iterates `self.items()`, whose elements are key-value tuples. -/
def ChangeTrackingDict.is_touched : ChangeTrackingDict → Bool
  | .mk store _ touched _ deleted =>
      !touched.isEmpty || !deleted.isEmpty || anyItemTouched store
termination_by d => ctdSize d
decreasing_by simp [ctdSize]

/-- `any(... for v in self.items())` for `is_touched`, iterating the
backing store and presenting each entry as the key-value tuple that
Python's `items()` yields. -/
def anyItemTouched : List (String × PyVal) → Bool
  | [] => false
  | (k, v) :: rest =>
      itemTrackedTouched (.vtuple [.vstr k, v]) || anyItemTouched rest
termination_by l => storeSize l
decreasing_by
  all_goals simp [pySize, pyListSize, storeSize]
  all_goals omega

end

mutual

/-- One element of `self.items()` run through `isinstance(v,
ChangeTrackingDict) and v.is_modified`. -/
def itemTrackedModified : PyVal → Bool
  | .vdict d => ChangeTrackingDict.is_modified d
  | _ => false
termination_by v => pySize v
decreasing_by simp [pySize, ctdSize]

/-- `ChangeTrackingDict.is_modified`: `self.modified_keys or
self.deleted_keys or any(isinstance(v, ChangeTrackingDict) and
v.is_modified for v in self.items())`, as a boolean. -/
def ChangeTrackingDict.is_modified : ChangeTrackingDict → Bool
  | .mk store _ _ modified deleted =>
      !modified.isEmpty || !deleted.isEmpty || anyItemModified store
termination_by d => ctdSize d
decreasing_by simp [ctdSize]

/-- `any(... for v in self.items())` for `is_modified`. -/
def anyItemModified : List (String × PyVal) → Bool
  | [] => false
  | (k, v) :: rest =>
      itemTrackedModified (.vtuple [.vstr k, v]) || anyItemModified rest
termination_by l => storeSize l
decreasing_by
  all_goals simp [pySize, pyListSize, storeSize]
  all_goals omega

end

/-- Python 2 `str.isalnum()` under the default locale: nonempty and
every character an ASCII letter or digit. -/
def strIsAlnum (s : String) : Bool :=
  s.length != 0 && s.toList.all (fun c => c.isAlphanum)

/-- `name[0].isalpha()`: the first character is an ASCII letter (only
evaluated after `isalnum` succeeded, so the string is nonempty). -/
def strHeadIsAlpha (s : String) : Bool :=
  match s.toList with
  | [] => false
  | c :: _ => c.isAlpha

/-- The key pattern `^[A-Za-z][A-Za-z0-9]*$`, written out from the
spec's words (first character in `A-Z` or `a-z`, the remaining
characters in `A-Z`, `a-z`, or `0-9`) for comparison with the source's
`isalnum`/`isalpha` check. -/
def matchesKeyPattern (s : String) : Bool :=
  match s.toList with
  | [] => false
  | c :: rest =>
      (c.isUpper || c.isLower) &&
      rest.all (fun e => e.isUpper || e.isLower || e.isDigit)

/-- Python `val is None`. -/
def isNoneVal : PyVal → Bool
  | .vnone => true
  | _ => false

/-- `isinstance(val, datetime.datetime)`. -/
def isDatetimeVal : PyVal → Bool
  | .vdatetime _ => true
  | _ => false

/-- Modelled from the spec: the external date-parsing collaborator
(`dateutil.parser.parse`), which turns a date string into a structured
datetime value; represented by tagging the string.  Parse failures on
malformed strings are outside the claims settled here. -/
def dateutilParse : PyVal → PyVal
  | .vstr s => .vdatetime s
  | v => v

/-- `PropertyDict._parse_date`: parse the value when it is non-`None`,
the key is a date property, and the value is not already a structured
datetime. -/
def PropertyDict.parse_date (dateProps : List String) (key : String)
    (val : PyVal) : PyVal :=
  if !isNoneVal val && dateProps.contains key && !isDatetimeVal val then
    dateutilParse val
  else val

/-- `PropertyDict.__init__`: every value of the initial mapping is
converted through `_parse_date`, then the converted mapping initializes
the `dict` contents and `ChangeTrackingDict.__init__` creates the four
empty tracking sets.  Keys of the initial mapping are not validated. -/
def PropertyDict.initDict (initial : List (String × PyVal))
    (dateProps : List String) : ChangeTrackingDict :=
  .mk (initial.map fun kv => (kv.1, PropertyDict.parse_date dateProps kv.1 kv.2))
    [] [] [] []

/-- `PropertyDict.__setitem__`: a key failing `name.isalnum() and
name[0].isalpha()` is rejected with `TypeError` before any mutation;
otherwise the value is date-coerced and handed to
`ChangeTrackingDict.__setitem__`, whose `KeyError` propagates. -/
def PropertyDict.setitem (dateProps : List String) (d : ChangeTrackingDict)
    (name : String) (val : PyVal) : ChangeTrackingDict × Option PyErr :=
  if !(strIsAlnum name && strHeadIsAlpha name) then (d, some .typeError)
  else
    let val := PropertyDict.parse_date dateProps name val
    let r := ChangeTrackingDict.setitem d name val
    (r.1, if r.2 then some .keyError else none)

/-- `Facility.DATE_PROPERTIES`. -/
def Facility.DATE_PROPERTIES : List String := ["createdAt", "updatedAt"]

/-- `Facility.EXTENDED_DATE_PROPERTIES`. -/
def Facility.EXTENDED_DATE_PROPERTIES : List String := []

/-- Python `unicode(...)` applied to the identifier values in play. -/
def pyUnicode : PyVal → PyVal
  | .vstr s => .vstr s
  | .vint n => .vstr (toString n)
  | v => v

/-- `.items()` of the mapping passed for `properties` (a plain mapping
from the server, or `{}` when the argument was falsy). -/
def pyItems : PyVal → List (String × PyVal)
  | .vdict d => d.store
  | _ => []

/-- `freddy.Facility`: the `_new`, `_partial`, and `_deleted` attributes
plus the `data` property dictionary.  `_partial` is kept as a Python
value because `FacilityQuery` passes a tuple for it and the source only
ever tests its truthiness.  The bound registry is represented by the
transport parameters of `save`/`delete`. -/
structure Facility where
  new : Bool
  isPartial : PyVal
  deleted : Bool
  data : ChangeTrackingDict

/-- The keyword parameters accepted by `Facility._get_property_dict`;
a mapping with any other key raises `TypeError` when splatted. -/
def facilityArgNames : List String :=
  ["uuid", "name", "href", "identifiers", "coordinates", "active",
   "createdAt", "updatedAt", "properties"]

/-- Whether a server mapping can be splatted into
`Facility._get_property_dict` without a `TypeError`. -/
def respArgsOk (resp : List (String × PyVal)) : Bool :=
  resp.all fun kv => facilityArgNames.contains kv.1

/-- `Facility._get_property_dict`: defaults absent parameters (`active`
defaults to `True`, the rest to `None`), wraps the extended properties
in their own `PropertyDict`, and builds the core `PropertyDict` with
`createdAt`/`updatedAt` as date properties. -/
def Facility.get_property_dict (resp : List (String × PyVal)) :
    ChangeTrackingDict :=
  let uuid := (dictGet resp "uuid").getD .vnone
  let nm := (dictGet resp "name").getD .vnone
  let href := (dictGet resp "href").getD .vnone
  let identifiers := (dictGet resp "identifiers").getD .vnone
  let coordinates := (dictGet resp "coordinates").getD .vnone
  let active := (dictGet resp "active").getD (.vbool true)
  let createdAt := (dictGet resp "createdAt").getD .vnone
  let updatedAt := (dictGet resp "updatedAt").getD .vnone
  let properties := (dictGet resp "properties").getD .vnone
  let props := PropertyDict.initDict (pyItems properties)
      Facility.EXTENDED_DATE_PROPERTIES
  PropertyDict.initDict
    [("uuid", if pyTruthy uuid then pyUnicode uuid else uuid),
     ("name", nm),
     ("href", href),
     ("identifiers", if pyTruthy identifiers then identifiers else .vlist []),
     ("coordinates", coordinates),
     ("active", active),
     ("createdAt", createdAt),
     ("updatedAt", updatedAt),
     ("properties", .vdict props)]
    Facility.DATE_PROPERTIES

/-- `Facility.__init__` (callers supply mappings whose keys are among
the accepted parameters; `respArgsOk` appears as a hypothesis where it
matters). -/
def Facility.initFacility (new : Bool) (partFlag : PyVal)
    (kwargs : List (String × PyVal)) : Facility :=
  ⟨new, partFlag, false, Facility.get_property_dict kwargs⟩

/-- `Facility.__getitem__`: `self.data[name]` (`none` models the
`KeyError` on an absent key). -/
def Facility.getitem (f : Facility) (name : String) : Option PyVal :=
  dictGet f.data.store name

/-- `Facility.__setitem__`: rejects mutation of a deleted facility,
rejects reassigning `properties`, and otherwise writes through
`PropertyDict.__setitem__` on `self.data`. -/
def Facility.setitem (f : Facility) (name : String) (val : PyVal) :
    Facility × Option PyErr :=
  if f.deleted then
    (f, some (.fredError "Tried to modify a deleted facility."))
  else if name = "properties" then
    (f, some (.fredError "Can't reassign the extended properties property."))
  else
    let r := PropertyDict.setitem Facility.DATE_PROPERTIES f.data name val
    ({ f with data := r.1 }, r.2)

/-- `Facility.is_touched`: `self._new or self.data.is_touched`. -/
def Facility.is_touched (f : Facility) : Bool :=
  f.new || f.data.is_touched

/-- `Facility.is_modified`: `self._new or self.data.is_modified`. -/
def Facility.is_modified (f : Facility) : Bool :=
  f.new || f.data.is_modified

/-- `Facility.delete` composed with `Registry.delete`: checks the
identifier and the deleted flag, then issues the transport delete (an
external collaborator whose success is assumed) and sets `_deleted`. -/
def Facility.delete (f : Facility) : Facility × Option PyErr :=
  match dictGet f.data.store "uuid" with
  | none => (f, some .keyError)
  | some u =>
      if !pyTruthy u then
        (f, some (.fredError "Tried to delete an unsaved facility."))
      else if f.deleted then
        (f, some (.fredError "Tried to delete a deleted facility."))
      else ({ f with deleted := true }, none)

/-- `Facility.save` composed with `Registry.save`: the deleted and
partial checks, then `Registry.save`'s `active`/`coordinates`
validation, then the transport call (`api.update`/`api.create`, an
external collaborator whose returned mapping is the `resp` parameter),
then `self.data = self._get_property_dict(**data)` and `self._new =
False`.  The last component records whether the transport was
invoked. -/
def Facility.save (f : Facility) (resp : List (String × PyVal)) :
    Facility × Option PyErr × Bool :=
  if f.deleted then
    (f, some (.fredError "Tried to save a deleted facility."), false)
  else if pyTruthy f.isPartial then
    (f, some (.fredError "Tried to save a partial response facility."), false)
  else
    match dictGet f.data.store "active" with
    | none => (f, some .keyError, false)
    | some av =>
        if isNoneVal av then
          (f, some (.fredError "active must not be None."), false)
        else
          match dictGet f.data.store "coordinates" with
          | none => (f, some .keyError, false)
          | some cv =>
              if isNoneVal cv then
                (f, some (.fredError "coordinates must not be None."), false)
              else if respArgsOk resp then
                ({ f with data := Facility.get_property_dict resp, new := false },
                 none, true)
              else (f, some .typeError, true)

/-- `freddy.util.to_json`: datetimes serialize to their ISO string (UTC),
everything else passes through. -/
def to_json : PyVal → PyVal
  | .vdatetime s => .vstr s
  | v => v

/-- `freddy.util.to_urlparam`: booleans serialize to literal
`"true"`/`"false"`, everything else goes through `to_json`. -/
def to_urlparam : PyVal → PyVal
  | .vbool b => .vstr (if b then "true" else "false")
  | v => to_json v

/-- `freddy.FacilityQuery`: the attributes set by `__init__`, plus the
`sort_desc_prop` attribute that `sort_desc` creates (modelled as `None`
until assigned).  The injected query function is an external
collaborator; `range` returns what would be passed to it. -/
structure FacilityQuery where
  filter_dict : List (String × PyVal)
  sort_asc_prop_name : PyVal
  sort_desc_prop_name : PyVal
  sort_desc_prop : PyVal
  sort_clauses : PyVal
  select_properties : List String
  executed : Bool

/-- A freshly constructed `FacilityQuery` (as made by
`Registry.facilities`). -/
def FacilityQuery.fresh : FacilityQuery :=
  ⟨[], .vnone, .vnone, .vnone, .vtuple [], [], false⟩

/-- `FacilityQuery.filter`: merge the given bindings into the
accumulated filter mapping. -/
def FacilityQuery.filter (q : FacilityQuery) (kw : List (String × PyVal)) :
    FacilityQuery :=
  { q with filter_dict := dictUpdate q.filter_dict kw }

/-- `FacilityQuery.is_sorted`: `self.sort_asc_prop_name or
self.sort_desc_prop_name or self.sort_clauses`, as a boolean. -/
def FacilityQuery.is_sorted (q : FacilityQuery) : Bool :=
  pyTruthy q.sort_asc_prop_name || pyTruthy q.sort_desc_prop_name ||
    pyTruthy q.sort_clauses

/-- `FacilityQuery.sort_asc`: raises bare `FredError()` when a sort is
already set, otherwise records `sort_asc_prop_name`. -/
def FacilityQuery.sort_asc (q : FacilityQuery) (prop : String) :
    FacilityQuery × Option PyErr :=
  if q.is_sorted then (q, some (.fredError ""))
  else ({ q with sort_asc_prop_name := .vstr prop }, none)

/-- `FacilityQuery.sort_desc`, translated as written: the source assigns
`self.sort_desc_prop = prop`, a different attribute from the
`sort_desc_prop_name` that `is_sorted` and `params` read. -/
def FacilityQuery.sort_desc (q : FacilityQuery) (prop : String) :
    FacilityQuery × Option PyErr :=
  if q.is_sorted then (q, some (.fredError ""))
  else ({ q with sort_desc_prop := .vstr prop }, none)

/-- `FacilityQuery.select`: overwrite the selection tuple. -/
def FacilityQuery.select (q : FacilityQuery) (props : List String) :
    FacilityQuery :=
  { q with select_properties := props }

/-- `FacilityQuery.params`: `fields`/`allProperties` from the selection,
`sortAsc`/`sortDesc` when their attributes are truthy, the accumulated
filters, and a final `to_urlparam` serialization pass. -/
def FacilityQuery.params (q : FacilityQuery) : List (String × PyVal) :=
  let ps : List (String × PyVal) :=
    if !q.select_properties.isEmpty then
      [("fields", .vstr (String.intercalate "," q.select_properties)),
       ("allProperties", .vbool false)]
    else [("allProperties", .vbool true)]
  let ps := if pyTruthy q.sort_asc_prop_name then
      dictSet ps "sortAsc" q.sort_asc_prop_name else ps
  let ps := if pyTruthy q.sort_desc_prop_name then
      dictSet ps "sortDesc" q.sort_desc_prop_name else ps
  let ps := dictUpdate ps q.filter_dict
  ps.map fun kv => (kv.1, to_urlparam kv.2)

/-- `end - start` in `range`'s pagination defaulting (the pagination
arguments in play are integers or omitted). -/
def pySub : PyVal → PyVal → PyVal
  | .vint a, .vint b => .vint (a - b)
  | _, _ => .vnone

/-- `FacilityQuery.range`: the one-shot execution check, pagination
defaulting (`start or 0`, `page_size or (end - start if end else
'off')`), the update of the serialized parameters with raw
`offset`/`limit`, and the call `self.query_function(params,
partial=self.select_properties)`.  The injected query function is an
external collaborator, so `range` returns the parameter mapping and the
selection tuple passed for its `partial` keyword (or `none` when
`FredError` was raised instead). -/
def FacilityQuery.range (q : FacilityQuery) (start end_ page_size : PyVal) :
    FacilityQuery × Option PyErr × Option (List (String × PyVal) × PyVal) :=
  if q.executed then
    (q, some (.fredError "Tried to re-execute an executed query."), none)
  else
    let s := if pyTruthy start then start else .vint 0
    let p := if pyTruthy page_size then page_size
             else if pyTruthy end_ then pySub end_ s else .vstr "off"
    let ps := dictUpdate q.params [("offset", s), ("limit", p)]
    ({ q with executed := true }, none,
     some (ps, .vtuple (q.select_properties.map .vstr)))

/-- `FacilityQuery.all`: `self.range(**kwargs)` with no arguments. -/
def FacilityQuery.all (q : FacilityQuery) :
    FacilityQuery × Option PyErr × Option (List (String × PyVal) × PyVal) :=
  q.range .vnone .vnone .vnone

/-- `Registry._query_function`: each raw result mapping is wrapped as
`self.Facility(partial=partial, **r)` (`new` is left at its default
`True`). -/
def Registry.query_result (partFlag : PyVal) (r : List (String × PyVal)) :
    Facility :=
  Facility.initFacility true partFlag r

/-- A freshly constructed empty `ChangeTrackingDict()`. -/
def exEmptyDict : ChangeTrackingDict := .mk [] [] [] [] []

/-- `ChangeTrackingDict({'a': 1})`: one pre-existing key. -/
def exPreDict : ChangeTrackingDict := .mk [("a", .vint 1)] [] [] [] []

/-- `ChangeTrackingDict({'a': 1})` after `del d['a']`: a dictionary
whose touched/modified/deleted sets are all `{'a'}`. -/
def exInnerDict : ChangeTrackingDict := (exPreDict.delitem "a").1

/-- `ChangeTrackingDict({'n': inner})` where `inner` is a touched and
modified tracking dictionary. -/
def exOuterDict : ChangeTrackingDict := .mk [("n", .vdict exInnerDict)] [] [] [] []

/-- The reachable state after `del d['a']` followed by the
`KeyError`-raising `d['a'] = 2`: the key sits in the added set (and
still in the deleted set) while absent from the backing store. -/
def exGhostDict : ChangeTrackingDict :=
  ((exPreDict.delitem "a").1.setitem "a" (.vint 2)).1

/-- A client-constructed new facility:
`registry.create(name="Foo", coordinates=[1.0, 2.0])`. -/
def exNewFacility : Facility :=
  Facility.initFacility true (.vbool false)
    [("name", .vstr "Foo"), ("coordinates", .vlist [.vint 1, .vint 2])]

/-- A server response for a successful create: identifier and
timestamps populated. -/
def exResp : List (String × PyVal) :=
  [("uuid", .vstr "u-1"), ("name", .vstr "Foo"),
   ("coordinates", .vlist [.vint 1, .vint 2]),
   ("createdAt", .vstr "2013-02-05T03:25:27Z"),
   ("updatedAt", .vstr "2013-02-05T03:25:27Z")]

/-- A saved facility that has been deleted: hydrated with a server
identifier, then `delete()`d. -/
def exDeletedFacility : Facility :=
  ((Facility.initFacility false (.vbool false) [("uuid", .vstr "u1")]).delete).1

/-- A new facility whose `coordinates` field was never supplied and so
defaulted to `None`. -/
def exNoCoordFacility : Facility :=
  Facility.initFacility true (.vbool false) [("name", .vstr "x")]

/-- A facility as constructed by `Registry._query_function` from a full
(no `select`) list response: falsy partial marker. -/
def exFullRespFacility : Facility :=
  Registry.query_result (.vtuple [])
    [("uuid", .vstr "u2"), ("name", .vstr "y")]

/-- A facility as constructed by `Registry._query_function` from a
partial (`select("name")`) list response: truthy partial marker. -/
def exPartRespFacility : Facility :=
  Registry.query_result (.vtuple [.vstr "name"]) [("name", .vstr "y")]

/-- Per-character agreement between Python's `isalnum` test and the
character class of the spec's key pattern. -/
theorem char_isAlphanum_eq (e : Char) :
    e.isAlphanum = (e.isUpper || e.isLower || e.isDigit) := by
  simp [Char.isAlphanum, Char.isAlpha, Bool.or_assoc]

/-- The source's `name.isalnum() and name[0].isalpha()` check is exactly
the spec's key pattern `^[A-Za-z][A-Za-z0-9]*$`. -/
theorem keyCheck_eq_pattern (s : String) :
    (strIsAlnum s && strHeadIsAlpha s) = matchesKeyPattern s := by
  obtain ⟨l⟩ := s
  cases l with
  | nil => rfl
  | cons c rest =>
      simp only [strIsAlnum, strHeadIsAlpha, matchesKeyPattern,
        String.toList, String.length, List.length_cons, List.all_cons,
        char_isAlphanum_eq, Char.isAlpha]
      cases hu : c.isUpper <;> cases hl : c.isLower <;>
        cases hd : c.isDigit <;> simp [hu, hl, hd]

/-- The recursive clause of `is_touched` never fires: every element of
`self.items()` is a key-value tuple, which fails the
`isinstance(v, ChangeTrackingDict)` test. -/
theorem anyItemTouched_false (l : List (String × PyVal)) :
    anyItemTouched l = false := by
  induction l with
  | nil => simp [anyItemTouched]
  | cons kv rest ih =>
      obtain ⟨k, v⟩ := kv
      simp [anyItemTouched, itemTrackedTouched, ih]

/-- The recursive clause of `is_modified` never fires, for the same
reason. -/
theorem anyItemModified_false (l : List (String × PyVal)) :
    anyItemModified l = false := by
  induction l with
  | nil => simp [anyItemModified]
  | cons kv rest ih =>
      obtain ⟨k, v⟩ := kv
      simp [anyItemModified, itemTrackedModified, ih]

/-- Closed form of `is_touched` on the code as written. -/
theorem is_touched_eq (st : List (String × PyVal)) (ad t m dl : List String) :
    ChangeTrackingDict.is_touched (.mk st ad t m dl) =
      (!t.isEmpty || !dl.isEmpty) := by
  simp [ChangeTrackingDict.is_touched, anyItemTouched_false]

/-- Closed form of `is_modified` on the code as written. -/
theorem is_modified_eq (st : List (String × PyVal)) (ad t m dl : List String) :
    ChangeTrackingDict.is_modified (.mk st ad t m dl) =
      (!m.isEmpty || !dl.isEmpty) := by
  simp [ChangeTrackingDict.is_modified, anyItemModified_false]

/-- C1: the claim states that `set(k, v)` on a key absent from the
backing store records `k` as added and touched, marks it modified, and
stores `v` so that `get(k)` returns it.  On the code as written,
`d['a'] = 1` on a fresh empty `ChangeTrackingDict` instead raises
`KeyError` from the unguarded re-read `dict.__getitem__(self, name)`:
the key is recorded as added and touched, but it is never marked
modified and the value is never stored. -/
theorem setitem_absent_key_raises_keyerror :
    (exEmptyDict.setitem "a" (.vint 1)).2 = true ∧
    (exEmptyDict.setitem "a" (.vint 1)).1.added_keys = ["a"] ∧
    (exEmptyDict.setitem "a" (.vint 1)).1.touched_keys = ["a"] ∧
    (exEmptyDict.setitem "a" (.vint 1)).1.modified_keys = [] ∧
    dictGet (exEmptyDict.setitem "a" (.vint 1)).1.store "a" = none :=
  ⟨rfl, rfl, rfl, rfl, rfl⟩

/-- C2: the claim states that `delete(k)` on a key in the added-set
removes `k` from the added, touched, and modified sets and from the
backing store, leaving no record of `k` in any tracking set.  In the
code as written a key can only reach the added-set through the
`KeyError`-raising `__setitem__`, which never stores it; on the
reachable state `exGhostDict` (`{'a': 1}`, then `del d['a']`, then the
failed `d['a'] = 2`), `del d['a']` raises `KeyError` from
`dict.__delitem__` and leaves `'a'` recorded in the deleted set. -/
theorem delitem_added_key_raises_keyerror :
    "a" ∈ exGhostDict.added_keys ∧
    (exGhostDict.delitem "a").2 = true ∧
    (exGhostDict.delitem "a").1.deleted_keys = ["a"] ∧
    dictGet exGhostDict.store "a" = none := by
  refine ⟨?_, rfl, rfl, rfl⟩
  decide

/-- C3: the claim states that with the direct key-sets empty,
`is_touched` / `is_modified` are true iff some stored value is itself a
tracking map reporting touched/modified.  On the code as written the
`any(...)` clause iterates `self.items()`, whose elements are key-value
tuples, so `isinstance(v, ChangeTrackingDict)` never matches: a map
whose only content is a touched-and-modified nested tracking map
reports neither touched nor modified. -/
theorem is_touched_ignores_nested_dicts :
    ChangeTrackingDict.is_touched exInnerDict = true ∧
    ChangeTrackingDict.is_modified exInnerDict = true ∧
    ChangeTrackingDict.is_touched exOuterDict = false ∧
    ChangeTrackingDict.is_modified exOuterDict = false := by
  have hin : exInnerDict = .mk [] [] ["a"] ["a"] ["a"] := rfl
  refine ⟨?_, ?_, ?_, ?_⟩ <;>
    simp [hin, exOuterDict, is_touched_eq, is_modified_eq]

/-- C4 counterexample: the claim states every key of a Property Map,
including keys supplied at construction, matches
`^[A-Za-z][A-Za-z0-9]*$`.  But `PropertyDict.__init__` does not
validate keys: `PropertyDict({'1abc': 5})` constructs successfully and
the resulting map contains the violating key. -/
theorem propertydict_construction_keeps_invalid_key :
    matchesKeyPattern "1abc" = false ∧
    dictGet (PropertyDict.initDict [("1abc", .vint 5)] []).store "1abc" =
      some (.vint 5) :=
  ⟨rfl, rfl⟩

/-- C4 (amended): assignment through `PropertyDict.__setitem__` of a key
violating `^[A-Za-z][A-Za-z0-9]*$` fails with `TypeError` (the spec's
`InvalidKey`) before any mutation, so the map's contents and tracking
sets are unchanged; keys supplied at construction, however, are not
validated. -/
theorem propertydict_setitem_invalid_key_rejected
    (dateProps : List String) (d : ChangeTrackingDict) (name : String)
    (val : PyVal) (h : matchesKeyPattern name = false) :
    PropertyDict.setitem dateProps d name val = (d, some .typeError) := by
  simp [PropertyDict.setitem, keyCheck_eq_pattern, h]

/-- Witness for `propertydict_setitem_invalid_key_rejected` at the
spec's own example key `"1abc"`. -/
theorem propertydict_setitem_invalid_key_rejected_witness :
    matchesKeyPattern "1abc" = false ∧
    PropertyDict.setitem [] exEmptyDict "1abc" (.vint 0) =
      (exEmptyDict, some .typeError) :=
  ⟨rfl, propertydict_setitem_invalid_key_rejected [] exEmptyDict "1abc"
    (.vint 0) rfl⟩

/-- C5: once a facility has been deleted, `set(field, value)` fails
with the deleted-entity `FredError`, `save()` fails with the
deleted-entity `FredError` without invoking the transport, and a second
`delete()` fails with the deleted-entity `FredError`; each failing call
returns the facility unchanged, so the deleted flag stays set and the
identifier is retained. -/
theorem facility_deleted_rejects_operations
    (f : Facility) (resp : List (String × PyVal)) (name : String) (val : PyVal)
    (hdel : f.deleted = true)
    (huuid : ∃ u, Facility.getitem f "uuid" = some u ∧ pyTruthy u = true) :
    Facility.setitem f name val =
      (f, some (.fredError "Tried to modify a deleted facility.")) ∧
    Facility.save f resp =
      (f, some (.fredError "Tried to save a deleted facility."), false) ∧
    Facility.delete f =
      (f, some (.fredError "Tried to delete a deleted facility.")) := by
  obtain ⟨u, hu, htu⟩ := huuid
  simp only [Facility.getitem] at hu
  refine ⟨?_, ?_, ?_⟩
  · simp [Facility.setitem, hdel]
  · simp [Facility.save, hdel]
  · unfold Facility.delete
    rw [hu]
    simp [htu, hdel]

/-- Witness for `facility_deleted_rejects_operations` on a hydrated,
then deleted, facility. -/
theorem facility_deleted_rejects_operations_witness :
    exDeletedFacility.deleted = true ∧
    Facility.setitem exDeletedFacility "name" (.vstr "x") =
      (exDeletedFacility, some (.fredError "Tried to modify a deleted facility.")) ∧
    Facility.save exDeletedFacility exResp =
      (exDeletedFacility, some (.fredError "Tried to save a deleted facility."), false) ∧
    Facility.delete exDeletedFacility =
      (exDeletedFacility, some (.fredError "Tried to delete a deleted facility.")) := by
  have h := facility_deleted_rejects_operations exDeletedFacility exResp "name"
    (.vstr "x") rfl ⟨.vstr "u1", rfl, rfl⟩
  exact ⟨rfl, h.1, h.2.1, h.2.2⟩

/-- C6: on a non-deleted, non-partial facility whose `active` or
`coordinates` field is `None`, `save()` fails with the validation
`FredError`, the transport is never invoked (for every possible
transport response the result is the same and the invoked flag is
`false`), and the facility, including all its tracking state, is
returned unchanged. -/
theorem save_null_field_fails_before_transport
    (f : Facility) (resp : List (String × PyVal))
    (hdel : f.deleted = false) (hpart : pyTruthy f.isPartial = false)
    (hnull :
      Facility.getitem f "active" = some .vnone ∨
      ((∃ a, Facility.getitem f "active" = some a ∧ isNoneVal a = false) ∧
        Facility.getitem f "coordinates" = some .vnone)) :
    ∃ msg, Facility.save f resp = (f, some (.fredError msg), false) := by
  simp only [Facility.getitem] at hnull
  rcases hnull with ha | ⟨⟨a, ha, hna⟩, hc⟩
  · exact ⟨"active must not be None.",
      by simp [Facility.save, hdel, hpart, ha, isNoneVal]⟩
  · exact ⟨"coordinates must not be None.",
      by
        have h1 : isNoneVal PyVal.vnone = true := rfl
        simp [Facility.save, hdel, hpart, ha, hna, hc, h1]⟩

/-- Witness for `save_null_field_fails_before_transport` on a new
facility with `coordinates=None`. -/
theorem save_null_field_fails_before_transport_witness :
    exNoCoordFacility.deleted = false ∧
    ∃ msg, Facility.save exNoCoordFacility exResp =
      (exNoCoordFacility, some (.fredError msg), false) :=
  ⟨rfl, save_null_field_fails_before_transport exNoCoordFacility exResp rfl rfl
    (Or.inr ⟨⟨.vbool true, rfl, rfl⟩, rfl⟩)⟩

/-- C7: a new (never-saved) facility reports `is_modified` before
save; after a successful `save()` whose transport response carries the
identifier and timestamps, the identifier is populated, the timestamps
are populated as structured datetimes, all four tracking sets of the
rebuilt property dictionary are empty (a fresh snapshot baseline), the
facility is no longer new, and `is_modified` is false. -/
theorem save_new_facility_populates_and_resets
    (f : Facility) (resp : List (String × PyVal)) (u cs us : String)
    (hnew : f.new = true) (hdel : f.deleted = false)
    (hpart : pyTruthy f.isPartial = false)
    (ha : ∃ a, Facility.getitem f "active" = some a ∧ isNoneVal a = false)
    (hc : ∃ c, Facility.getitem f "coordinates" = some c ∧ isNoneVal c = false)
    (hok : respArgsOk resp = true)
    (hu : dictGet resp "uuid" = some (.vstr u)) (hune : (u != "") = true)
    (hcr : dictGet resp "createdAt" = some (.vstr cs))
    (hup : dictGet resp "updatedAt" = some (.vstr us)) :
    Facility.is_modified f = true ∧
    (Facility.save f resp).2.1 = none ∧
    (Facility.save f resp).2.2 = true ∧
    (Facility.save f resp).1.new = false ∧
    Facility.getitem (Facility.save f resp).1 "uuid" = some (.vstr u) ∧
    Facility.getitem (Facility.save f resp).1 "createdAt" =
      some (.vdatetime cs) ∧
    Facility.getitem (Facility.save f resp).1 "updatedAt" =
      some (.vdatetime us) ∧
    (Facility.save f resp).1.data.added_keys = [] ∧
    (Facility.save f resp).1.data.touched_keys = [] ∧
    (Facility.save f resp).1.data.modified_keys = [] ∧
    (Facility.save f resp).1.data.deleted_keys = [] ∧
    Facility.is_modified (Facility.save f resp).1 = false := by
  obtain ⟨a, ha, hna⟩ := ha
  obtain ⟨c, hc, hnc⟩ := hc
  simp only [Facility.getitem] at ha hc
  have hsave : Facility.save f resp =
      ({ f with data := Facility.get_property_dict resp, new := false },
       none, true) := by
    simp [Facility.save, hdel, hpart, ha, hna, hc, hnc, hok]
  refine ⟨?_, ?_, ?_, ?_, ?_, ?_, ?_, ?_, ?_, ?_, ?_, ?_⟩
  · simp [Facility.is_modified, hnew]
  · rw [hsave]
  · rw [hsave]
  · rw [hsave]
  · rw [hsave]
    simp [Facility.getitem, Facility.get_property_dict, PropertyDict.initDict,
      PropertyDict.parse_date, dateutilParse, isNoneVal, isDatetimeVal,
      pyUnicode, pyTruthy, dictGet, Facility.DATE_PROPERTIES, List.contains,
      ChangeTrackingDict.store, hu, hune]
  · rw [hsave]
    simp [Facility.getitem, Facility.get_property_dict, PropertyDict.initDict,
      PropertyDict.parse_date, dateutilParse, isNoneVal, isDatetimeVal,
      pyUnicode, pyTruthy, dictGet, Facility.DATE_PROPERTIES, List.contains,
      ChangeTrackingDict.store, hcr]
  · rw [hsave]
    simp [Facility.getitem, Facility.get_property_dict, PropertyDict.initDict,
      PropertyDict.parse_date, dateutilParse, isNoneVal, isDatetimeVal,
      pyUnicode, pyTruthy, dictGet, Facility.DATE_PROPERTIES, List.contains,
      ChangeTrackingDict.store, hup]
  · rw [hsave]
    simp [Facility.get_property_dict, PropertyDict.initDict,
      ChangeTrackingDict.added_keys]
  · rw [hsave]
    simp [Facility.get_property_dict, PropertyDict.initDict,
      ChangeTrackingDict.touched_keys]
  · rw [hsave]
    simp [Facility.get_property_dict, PropertyDict.initDict,
      ChangeTrackingDict.modified_keys]
  · rw [hsave]
    simp [Facility.get_property_dict, PropertyDict.initDict,
      ChangeTrackingDict.deleted_keys]
  · rw [hsave]
    simp [Facility.is_modified, Facility.get_property_dict,
      PropertyDict.initDict, is_modified_eq]

/-- Witness for `save_new_facility_populates_and_resets`: the spec's
scenario, a new facility `name="Foo", coordinates=[1.0, 2.0]` saved
against a response carrying identifier and timestamps. -/
theorem save_new_facility_populates_and_resets_witness :
    exNewFacility.new = true ∧
    Facility.is_modified exNewFacility = true ∧
    (Facility.save exNewFacility exResp).2.1 = none ∧
    Facility.getitem (Facility.save exNewFacility exResp).1 "uuid" =
      some (.vstr "u-1") ∧
    Facility.is_modified (Facility.save exNewFacility exResp).1 = false := by
  have h := save_new_facility_populates_and_resets exNewFacility exResp
    "u-1" "2013-02-05T03:25:27Z" "2013-02-05T03:25:27Z"
    rfl rfl rfl ⟨.vbool true, rfl, rfl⟩
    ⟨.vlist [.vint 1, .vint 2], rfl, rfl⟩ rfl rfl rfl rfl rfl
  exact ⟨rfl, h.1, h.2.1, h.2.2.2.2.1, h.2.2.2.2.2.2.2.2.2.2.2⟩

/-- C8: the claim states `sort_descending(f)` records the descending
directive (so the built parameters include `sortDesc=f`) and that after
any sort directive a further sort call fails with `ConflictingSort`.
On the code as written `sort_desc` assigns `self.sort_desc_prop`, while
`is_sorted` and `params` read `self.sort_desc_prop_name`: on a fresh
query `sort_desc("name")` succeeds and stores the field on the dead
attribute, the built parameters contain no `sortDesc`, the query does
not count as sorted, and a subsequent `sort_asc("other")` succeeds
instead of raising. -/
theorem sort_desc_directive_dropped :
    (FacilityQuery.fresh.sort_desc "name").2 = none ∧
    ((FacilityQuery.fresh.sort_desc "name").1).sort_desc_prop =
      .vstr "name" ∧
    ((FacilityQuery.fresh.sort_desc "name").1).is_sorted = false ∧
    dictGet ((FacilityQuery.fresh.sort_desc "name").1).params "sortDesc" =
      none ∧
    (((FacilityQuery.fresh.sort_desc "name").1).sort_asc "other").2 = none :=
  ⟨rfl, rfl, rfl, rfl, rfl⟩

/-- C9 counterexample: the claim states that
`.filter(active=False).select("name").all()` invokes the fetch function
with exactly `{allProperties, fields, active}` and no other keys,
offset/limit being merged only when pagination arguments are given.
But `range` always merges them: with no pagination arguments the
passed parameters also contain `offset=0` and `limit='off'`. -/
theorem query_all_params_contain_offset_limit :
    ((((FacilityQuery.fresh.filter [("active", .vbool false)]).select
        ["name"]).all).2.2.bind fun pr => dictGet pr.1 "offset") =
      some (.vint 0) ∧
    ((((FacilityQuery.fresh.filter [("active", .vbool false)]).select
        ["name"]).all).2.2.bind fun pr => dictGet pr.1 "limit") =
      some (.vstr "off") :=
  ⟨rfl, rfl⟩

/-- C9 (amended): the chain `.filter(active=False).select("name").all()`
invokes the fetch function with exactly the parameter mapping
`{fields: "name", allProperties: "false", active: "false", offset: 0,
limit: "off"}` — offset and limit are always merged in, defaulting to
`0` and `"off"` when no pagination arguments are given — and passes the
non-empty selection tuple as a truthy partial-response marker. -/
theorem query_all_params_exact :
    (((FacilityQuery.fresh.filter [("active", .vbool false)]).select
        ["name"]).all).2.2 =
      some ([("fields", .vstr "name"), ("allProperties", .vstr "false"),
             ("active", .vstr "false"), ("offset", .vint 0),
             ("limit", .vstr "off")], .vtuple [.vstr "name"]) ∧
    (((FacilityQuery.fresh.filter [("active", .vbool false)]).select
        ["name"]).all).2.1 = none ∧
    pyTruthy (.vtuple [.vstr "name"]) = true :=
  ⟨rfl, rfl, rfl⟩

/-- C10: a query executed without any `select()` passes the empty
selection tuple (falsy) as the `partial` argument; the facilities it
yields carry that falsy marker, and `save()` on such a facility is
never rejected with the partial-response error.  A query with a
non-empty selection passes a truthy tuple, and `save()` on a
non-deleted facility carrying it is rejected with exactly that
error. -/
theorem select_marker_gates_save
    (q : FacilityQuery) (f g : Facility) (resp : List (String × PyVal))
    (props : List String) (r : List (String × PyVal))
    (hq : q.select_properties = []) (hqe : q.executed = false)
    (hf : f.isPartial = .vtuple []) (hfd : f.deleted = false)
    (hg : g.isPartial = .vtuple (props.map .vstr)) (hgd : g.deleted = false)
    (hp : props ≠ []) :
    (∃ ps, (q.all).2.2 = some (ps, .vtuple []) ∧
      (Registry.query_result (.vtuple []) r).isPartial = .vtuple [] ∧
      pyTruthy (PyVal.vtuple []) = false) ∧
    (Facility.save f resp).2.1 ≠
      some (.fredError "Tried to save a partial response facility.") ∧
    pyTruthy (.vtuple (props.map .vstr)) = true ∧
    (Facility.save g resp).2.1 =
      some (.fredError "Tried to save a partial response facility.") := by
  cases props with
  | nil => exact absurd rfl hp
  | cons p ps =>
      refine ⟨⟨dictUpdate q.params [("offset", .vint 0), ("limit", .vstr "off")],
        ?_, rfl, rfl⟩, ?_, ?_, ?_⟩
      · simp [FacilityQuery.all, FacilityQuery.range, hqe, hq, pyTruthy]
      · rcases hAv : dictGet f.data.store "active" with _ | av
        · simp [Facility.save, hfd, hf, pyTruthy, hAv]
        · cases hNa : isNoneVal av
          · rcases hCv : dictGet f.data.store "coordinates" with _ | cv
            · simp [Facility.save, hfd, hf, pyTruthy, hAv, hNa, hCv]
            · cases hNc : isNoneVal cv
              · cases hOk : respArgsOk resp
                · simp [Facility.save, hfd, hf, pyTruthy, hAv, hNa, hCv,
                    hNc, hOk]
                · simp [Facility.save, hfd, hf, pyTruthy, hAv, hNa, hCv,
                    hNc, hOk]
              · simp [Facility.save, hfd, hf, pyTruthy, hAv, hNa, hCv, hNc]
          · simp [Facility.save, hfd, hf, pyTruthy, hAv, hNa]
      · simp [pyTruthy]
      · simp [Facility.save, hgd, hg, pyTruthy]

/-- Witness for `select_marker_gates_save`: a fresh query with no
selection, a full-response facility, and a `select("name")`-response
facility. -/
theorem select_marker_gates_save_witness :
    (∃ ps, (FacilityQuery.fresh.all).2.2 = some (ps, .vtuple []) ∧
      (Registry.query_result (.vtuple []) []).isPartial = .vtuple [] ∧
      pyTruthy (PyVal.vtuple []) = false) ∧
    (Facility.save exFullRespFacility exResp).2.1 ≠
      some (.fredError "Tried to save a partial response facility.") ∧
    pyTruthy (.vtuple (["name"].map .vstr)) = true ∧
    (Facility.save exPartRespFacility exResp).2.1 =
      some (.fredError "Tried to save a partial response facility.") :=
  select_marker_gates_save FacilityQuery.fresh exFullRespFacility
    exPartRespFacility exResp ["name"] [] rfl rfl rfl rfl rfl rfl
    (by decide)
